import Mathlib

/-!
Verification of the AxisFit posture-monitoring core (monitor-deportivo-dash).

Shallow embedding of the numeric/state-machine core of the repository:
`posture_engine.py`, `clock_sync.py`, `session_recorder.py`, the per-sample
statistics loop of `views/athlete/monitor_view.py`, and the daily-summary
aggregation of `db.py`.  Python floats are modelled as rationals (`ℚ`),
Python ints as `ℤ`/`ℕ`, dict-shaped samples as structures with `Option`
fields, and the storage collaborator (`db`) as a log of emitted calls.
-/

namespace AxisFit

/-- `posture_engine._clamp` (also duplicated in `clock_sync.py`):
`lo if x < lo else hi if x > hi else x`. -/
def _clamp (x lo hi : ℚ) : ℚ :=
  if x < lo then lo else if x > hi then hi else x

theorem _clamp_le {lo hi : ℚ} (x : ℚ) (h : lo ≤ hi) : _clamp x lo hi ≤ hi := by
  unfold _clamp
  split
  · exact h
  · split
    · exact le_refl hi
    · linarith [not_lt.mp (by assumption : ¬ x > hi)]

theorem le_clamp {lo hi : ℚ} (x : ℚ) (h : lo ≤ hi) : lo ≤ _clamp x lo hi := by
  unfold _clamp
  split
  · exact le_refl lo
  · split
    · exact h
    · linarith [not_lt.mp (by assumption : ¬ x < lo)]

theorem _clamp_eq_self {x lo hi : ℚ} (h1 : lo ≤ x) (h2 : x ≤ hi) :
    _clamp x lo hi = x := by
  unfold _clamp
  split
  · linarith
  · split
    · linarith
    · rfl

/-- Posture zone (`Zone = "green" | "yellow" | "red"`). -/
inductive Zone where
  | green
  | yellow
  | red
deriving DecidableEq, Repr

/-- Per-segment threshold block `{pitch_g, pitch_y, roll_g, roll_y}`. -/
structure Thresholds where
  pitch_g : ℚ
  pitch_y : ℚ
  roll_g : ℚ
  roll_y : ℚ
deriving DecidableEq, Repr

/-- `posture_engine._zone_from_abs` (the same decision tree is duplicated as
`monitor_view._zone_from_angles`): green if both magnitudes within the green
bounds, else yellow if within the yellow bounds, else red. -/
def _zone_from_abs (pitch roll : ℚ) (th : Thresholds) : Zone :=
  if |pitch| ≤ th.pitch_g ∧ |roll| ≤ th.roll_g then Zone.green
  else if |pitch| ≤ th.pitch_y ∧ |roll| ≤ th.roll_y then Zone.yellow
  else Zone.red

/-- `posture_engine.compute_risk_index`: duration clamped below by `1e-6`,
each fraction clamped to `[0,1]`, weighted `0.45` (lumbar) / `0.35`
(thoracic) / `0.20` (compensation), scaled to 100 and clamped to `[0,100]`. -/
def compute_risk_index (duration_s thor_red_s lum_red_s comp_avg : ℚ) : ℚ :=
  _clamp (100 * (45 / 100 * _clamp (lum_red_s / max duration_s (1 / 1000000)) 0 1
      + 35 / 100 * _clamp (thor_red_s / max duration_s (1 / 1000000)) 0 1
      + 20 / 100 * _clamp (comp_avg / 100) 0 1)) 0 100

/-- The risk formula written exactly as the spec sentence reads: the red
fractions are the raw values divided by `duration_s` itself (no lower clamp
on the duration), each clamped to `[0,1]`, and the weighted combination is
clamped to `[0,1]` before scaling by 100. -/
def risk_index_spec (duration_s thor_red_s lum_red_s comp_avg : ℚ) : ℚ :=
  100 * _clamp (45 / 100 * _clamp (lum_red_s / duration_s) 0 1
      + 35 / 100 * _clamp (thor_red_s / duration_s) 0 1
      + 20 / 100 * _clamp (comp_avg / 100) 0 1) 0 1

/-- C1 (counterexample): at `duration_s = 1/2000000 < 1e-6` with
`thor_red_s = duration_s`, the code divides by `max(duration_s, 1e-6) = 1e-6`
and returns `17.5`, while the claim's formula divides by `duration_s` and
yields `35`. -/
theorem C1_counterexample :
    compute_risk_index (1 / 2000000) (1 / 2000000) 0 0 ≠
      risk_index_spec (1 / 2000000) (1 / 2000000) 0 0 := by
  have h1 : compute_risk_index (1 / 2000000) (1 / 2000000) 0 0 = 35 / 2 := by
    unfold compute_risk_index _clamp
    norm_num [max_def]
  have h2 : risk_index_spec (1 / 2000000) (1 / 2000000) 0 0 = 35 := by
    unfold risk_index_spec _clamp
    norm_num
  rw [h1, h2]
  norm_num

/-- C1 (amended): `compute_risk_index` equals 100 times the clamp to `[0,1]`
of the weighted combination of the individually clamped fractions, with each
red fraction taken over `max duration_s 1e-6` rather than `duration_s`; and
the result always lies in `[0,100]`. -/
theorem C1_risk_index (d t l c : ℚ) :
    compute_risk_index d t l c =
      100 * _clamp (45 / 100 * _clamp (l / max d (1 / 1000000)) 0 1
          + 35 / 100 * _clamp (t / max d (1 / 1000000)) 0 1
          + 20 / 100 * _clamp (c / 100) 0 1) 0 1
    ∧ 0 ≤ compute_risk_index d t l c ∧ compute_risk_index d t l c ≤ 100 := by
  have h01 : (0 : ℚ) ≤ 1 := by norm_num
  unfold compute_risk_index
  set A := _clamp (l / max d (1 / 1000000)) 0 1 with hA
  set B := _clamp (t / max d (1 / 1000000)) 0 1 with hB
  set C := _clamp (c / 100) 0 1 with hC
  have hA1 : A ≤ 1 := _clamp_le _ h01
  have hA0 : 0 ≤ A := le_clamp _ h01
  have hB1 : B ≤ 1 := _clamp_le _ h01
  have hB0 : 0 ≤ B := le_clamp _ h01
  have hC1 : C ≤ 1 := _clamp_le _ h01
  have hC0 : 0 ≤ C := le_clamp _ h01
  set S := 45 / 100 * A + 35 / 100 * B + 20 / 100 * C with hS
  have hS0 : 0 ≤ S := by rw [hS]; positivity
  have hS1 : S ≤ 1 := by rw [hS]; linarith
  have e1 : _clamp (100 * S) 0 100 = 100 * S :=
    _clamp_eq_self (by linarith) (by linarith)
  have e2 : _clamp S 0 1 = S := _clamp_eq_self hS0 hS1
  rw [e1, e2]
  exact ⟨rfl, by linarith, by linarith⟩

/-- C5: the zone classifier returns green exactly when both magnitudes are
within the green bounds, yellow exactly when not green but within the yellow
bounds, red otherwise; and zero displacement is always green when the green
bounds are non-negative. -/
theorem C5_classifier (p r : ℚ) (th : Thresholds)
    (hpy : th.pitch_g ≤ th.pitch_y) (hry : th.roll_g ≤ th.roll_y)
    (hg : 0 ≤ th.pitch_g) (hg2 : 0 ≤ th.roll_g) :
    (_zone_from_abs p r th = Zone.green ↔ |p| ≤ th.pitch_g ∧ |r| ≤ th.roll_g)
    ∧ (_zone_from_abs p r th = Zone.yellow ↔
        ¬(|p| ≤ th.pitch_g ∧ |r| ≤ th.roll_g) ∧ (|p| ≤ th.pitch_y ∧ |r| ≤ th.roll_y))
    ∧ (_zone_from_abs p r th = Zone.red ↔
        ¬(|p| ≤ th.pitch_g ∧ |r| ≤ th.roll_g) ∧ ¬(|p| ≤ th.pitch_y ∧ |r| ≤ th.roll_y))
    ∧ _zone_from_abs 0 0 th = Zone.green := by
  have h0 : _zone_from_abs 0 0 th = Zone.green := by
    unfold _zone_from_abs
    rw [if_pos]
    simpa using ⟨hg, hg2⟩
  refine ⟨?_, ?_, ?_, h0⟩ <;>
    · unfold _zone_from_abs
      split_ifs with h1 h2 <;> simp_all

/-- C5 witness: concrete evaluation at the default desk thoracic thresholds. -/
theorem C5_classifier_witness :
    ((_zone_from_abs 9 3 ⟨8, 15, 7, 12⟩ = Zone.green ↔ |(9 : ℚ)| ≤ 8 ∧ |(3 : ℚ)| ≤ 7)
    ∧ (_zone_from_abs 9 3 ⟨8, 15, 7, 12⟩ = Zone.yellow ↔
        ¬(|(9 : ℚ)| ≤ 8 ∧ |(3 : ℚ)| ≤ 7) ∧ (|(9 : ℚ)| ≤ 15 ∧ |(3 : ℚ)| ≤ 12))
    ∧ (_zone_from_abs 9 3 ⟨8, 15, 7, 12⟩ = Zone.red ↔
        ¬(|(9 : ℚ)| ≤ 8 ∧ |(3 : ℚ)| ≤ 7) ∧ ¬(|(9 : ℚ)| ≤ 15 ∧ |(3 : ℚ)| ≤ 12))
    ∧ _zone_from_abs 0 0 (⟨8, 15, 7, 12⟩ : Thresholds) = Zone.green) :=
  C5_classifier 9 3 ⟨8, 15, 7, 12⟩ (by norm_num) (by norm_num) (by norm_num) (by norm_num)

/-- Python `int()` applied to a float: truncation toward zero. -/
def float_to_int (q : ℚ) : ℤ :=
  if q < 0 then ⌈q⌉ else ⌊q⌋

/-- One held sample of `clock_sync.DualStreamAligner`:
the `(host_ts_ms, imu_ts_ms, payload)` triple stored by `push_A`/`push_B`. -/
structure LastSample (α : Type) where
  host_ts_ms : ℚ
  imu_ts_ms : ℚ
  payload : α

/-- `clock_sync.DualStreamAligner`: sample-and-hold state for two streams. -/
structure DualStreamAligner (α : Type) where
  max_age_ms : ℤ
  last_A : Option (LastSample α)
  last_B : Option (LastSample α)

/-- `DualStreamAligner.push_A`: overwrite the held sample of stream A. -/
def push_A {α : Type} (st : DualStreamAligner α)
    (host_ts_ms imu_ts_ms : ℚ) (payload : α) : DualStreamAligner α :=
  { st with last_A := some ⟨host_ts_ms, imu_ts_ms, payload⟩ }

/-- `DualStreamAligner.push_B`: overwrite the held sample of stream B. -/
def push_B {α : Type} (st : DualStreamAligner α)
    (host_ts_ms imu_ts_ms : ℚ) (payload : α) : DualStreamAligner α :=
  { st with last_B := some ⟨host_ts_ms, imu_ts_ms, payload⟩ }

/-- The inner `_pick` closure of `DualStreamAligner.fused_at`: `None` when the
stream never pushed or its held sample is older than `max_age_ms`. -/
def _pick {α : Type} (max_age_ms : ℤ) (t : ℚ) :
    Option (LastSample α) → Option (α × ℚ)
  | none => none
  | some l => if t - l.host_ts_ms > (max_age_ms : ℚ) then none else some (l.payload, l.imu_ts_ms)

/-- `DualStreamAligner.fused_at`: both held payloads plus their (truncated)
IMU timestamps, or `None` when either stream is missing or stale. -/
def fused_at {α : Type} (st : DualStreamAligner α) (host_ts_ms : ℚ) :
    Option (α × α × ℤ × ℤ) :=
  match _pick st.max_age_ms host_ts_ms st.last_A, _pick st.max_age_ms host_ts_ms st.last_B with
  | some a, some b => some (a.1, b.1, float_to_int a.2, float_to_int b.2)
  | _, _ => none

theorem _pick_eq_none_iff {α : Type} (m : ℤ) (t : ℚ) (o : Option (LastSample α)) :
    _pick m t o = none ↔
      o = none ∨ ∃ l, o = some l ∧ t - l.host_ts_ms > (m : ℚ) := by
  cases o with
  | none => simp [_pick]
  | some l =>
      simp only [_pick]
      split_ifs with h
      · simp [h]
      · simp [h]

theorem _pick_eq_some {α : Type} (m : ℤ) (t : ℚ) (l : LastSample α)
    (h : t - l.host_ts_ms ≤ (m : ℚ)) :
    _pick m t (some l) = some (l.payload, l.imu_ts_ms) := by
  simp only [_pick]
  rw [if_neg (not_lt.mpr h)]

/-- C4: `fused_at t` is `None` exactly when some stream's held sample is
missing or satisfies `t - stored_host_ts > max_age_ms`; when both streams are
within the age bound it returns both payloads and both device timestamps, with
no condition relating the two streams' push times to each other. -/
theorem C4_fused_at (α : Type) (st : DualStreamAligner α) (t : ℚ) :
    (fused_at st t = none ↔
      st.last_A = none ∨ st.last_B = none ∨
      (∃ l, st.last_A = some l ∧ t - l.host_ts_ms > (st.max_age_ms : ℚ)) ∨
      (∃ l, st.last_B = some l ∧ t - l.host_ts_ms > (st.max_age_ms : ℚ)))
    ∧ (∀ la lb, st.last_A = some la → st.last_B = some lb →
        t - la.host_ts_ms ≤ (st.max_age_ms : ℚ) → t - lb.host_ts_ms ≤ (st.max_age_ms : ℚ) →
        fused_at st t =
          some (la.payload, lb.payload, float_to_int la.imu_ts_ms, float_to_int lb.imu_ts_ms)) := by
  constructor
  · rcases st with ⟨m, oA, oB⟩
    cases oA with
    | none => simp [fused_at, _pick]
    | some la =>
        cases oB with
        | none => simp [fused_at, _pick]
        | some lb =>
            simp only [fused_at, _pick]
            split_ifs with h1 h2 h2 <;> simp_all
  · intro la lb hA hB hfA hfB
    have pA : _pick st.max_age_ms t st.last_A = some (la.payload, la.imu_ts_ms) := by
      rw [hA]; exact _pick_eq_some _ _ _ hfA
    have pB : _pick st.max_age_ms t st.last_B = some (lb.payload, lb.imu_ts_ms) := by
      rw [hB]; exact _pick_eq_some _ _ _ hfB
    unfold fused_at
    rw [pA, pB]

/-- C4 witness: a concrete aligner whose streams pushed 240 ms apart still
fuses at `t = 250` (each held sample is within `max_age_ms = 250`). -/
theorem C4_fused_at_witness :
    fused_at (⟨250, some ⟨10, 3, 17⟩, some ⟨250, 8, 23⟩⟩ : DualStreamAligner ℕ) 250 =
      some (17, 23, float_to_int 3, float_to_int 8) :=
  (C4_fused_at ℕ ⟨250, some ⟨10, 3, 17⟩, some ⟨250, 8, 23⟩⟩ 250).2
    ⟨10, 3, 17⟩ ⟨250, 8, 23⟩ rfl rfl (by norm_num) (by norm_num)

/-- `SyncParams {a, b}`: the fitted map `host ≈ a · imu + b`. -/
structure SyncParams where
  a : ℚ
  b : ℚ
deriving DecidableEq, Repr

/-- Bounded FIFO append of `collections.deque(maxlen)`: push right, evict
from the left when over capacity. -/
def dequeAppend {α : Type} (maxlen : ℕ) (xs : List α) (x : α) : List α :=
  let ys := xs ++ [x]
  ys.drop (ys.length - maxlen)

/-- `clock_sync.LinearClockSync`: windowed least-squares clock-map estimator. -/
structure LinearClockSync where
  max_points : ℕ
  min_points : ℕ
  pts : List (ℚ × ℚ)
  params : SyncParams
deriving DecidableEq, Repr

/-- Fresh `LinearClockSync(max_points, min_points)`: empty window, identity
params. -/
def mkLinearClockSync (max_points min_points : ℕ) : LinearClockSync :=
  ⟨max_points, min_points, [], ⟨1, 0⟩⟩

/-- `LinearClockSync.update`: append the pair to the window; offset-only with
slope 1 during warm-up (below `min_points`) and in the degenerate
`|sxx| < 1e-9` case; otherwise ordinary least squares with the slope clamped
to `[0.95, 1.05]` afterwards (the intercept is computed from the unclamped
slope and is itself not clamped).  `pts.getLastD` returns the just-appended
pair whenever the deque capacity is at least 1, as in the source. -/
def LinearClockSync.update (st : LinearClockSync) (imu_ts_ms host_recv_ms : ℚ) :
    LinearClockSync :=
  let pts := dequeAppend st.max_points st.pts (imu_ts_ms, host_recv_ms)
  if pts.length < st.min_points then
    let last := pts.getLastD (imu_ts_ms, host_recv_ms)
    { st with pts := pts, params := ⟨1, last.2 - last.1⟩ }
  else
    let xs := pts.map Prod.fst
    let ys := pts.map Prod.snd
    let n : ℚ := (xs.length : ℚ)
    let x_mean := xs.sum / n
    let y_mean := ys.sum / n
    let sxx := (xs.map (fun x => (x - x_mean) ^ 2)).sum
    let sxy := ((xs.zip ys).map (fun p => (p.1 - x_mean) * (p.2 - y_mean))).sum
    if |sxx| < 1 / 1000000000 then
      { st with pts := pts, params := ⟨1, y_mean - x_mean⟩ }
    else
      { st with pts := pts,
                params := ⟨_clamp (sxy / sxx) (95 / 100) (105 / 100),
                           y_mean - (sxy / sxx) * x_mean⟩ }

theorem update_slope_mem (st : LinearClockSync) (i h : ℚ) :
    95 / 100 ≤ (st.update i h).params.a ∧ (st.update i h).params.a ≤ 105 / 100 := by
  simp only [LinearClockSync.update]
  split_ifs with h1 h2
  · constructor <;> norm_num
  · constructor <;> norm_num
  · exact ⟨le_clamp _ (by norm_num), _clamp_le _ (by norm_num)⟩

theorem slope_inv_foldl (cs : List (ℚ × ℚ)) : ∀ st : LinearClockSync,
    95 / 100 ≤ st.params.a ∧ st.params.a ≤ 105 / 100 →
    95 / 100 ≤ (cs.foldl (fun s c => s.update c.1 c.2) st).params.a ∧
      (cs.foldl (fun s c => s.update c.1 c.2) st).params.a ≤ 105 / 100 := by
  induction cs with
  | nil => intro st hy; simpa using hy
  | cons c cs ih =>
      intro st hy
      simpa [List.foldl] using ih (st.update c.1 c.2) (update_slope_mem st c.1 c.2)

/-- The centred sum of squares `sxx` that `LinearClockSync.update` computes
over a window. -/
def sxxOf (pts : List (ℚ × ℚ)) : ℚ :=
  ((pts.map Prod.fst).map
    (fun x => (x - (pts.map Prod.fst).sum / (((pts.map Prod.fst).length : ℚ))) ^ 2)).sum

/-- C6: after any sequence of `update` calls on a fresh estimator the slope
lies in `[0.95, 1.05]`; whenever the window (after the append) is still below
`min_points` the slope is exactly 1; in the degenerate near-zero-variance
case (`|sxx| < 1e-9`) the slope is exactly 1; and the intercept is not
clamped — a single warm-up update can give it any rational value
whatsoever. -/
theorem C6_slope_clamped (calls : List (ℚ × ℚ)) :
    (95 / 100 ≤ (calls.foldl (fun s c => s.update c.1 c.2) (mkLinearClockSync 200 12)).params.a
      ∧ (calls.foldl (fun s c => s.update c.1 c.2) (mkLinearClockSync 200 12)).params.a ≤ 105 / 100)
    ∧ (∀ (st : LinearClockSync) (i h : ℚ),
        (dequeAppend st.max_points st.pts (i, h)).length < st.min_points →
        (st.update i h).params.a = 1)
    ∧ (∀ (st : LinearClockSync) (i y : ℚ),
        ¬((dequeAppend st.max_points st.pts (i, y)).length < st.min_points) →
        |sxxOf (dequeAppend st.max_points st.pts (i, y))| < 1 / 1000000000 →
        (st.update i y).params.a = 1)
    ∧ (∀ c : ℚ, ((mkLinearClockSync 200 12).update 0 c).params.b = c) := by
  refine ⟨?_, ?_, ?_, ?_⟩
  · exact slope_inv_foldl calls (mkLinearClockSync 200 12) (by norm_num [mkLinearClockSync])
  · intro st i h hlt
    simp only [LinearClockSync.update]
    rw [if_pos hlt]
  · intro st i y hlen hsxx
    simp only [LinearClockSync.update]
    rw [if_neg hlen]
    split_ifs with hd
    · rfl
    · exact absurd hsxx hd
  · intro c
    simp only [LinearClockSync.update, mkLinearClockSync, dequeAppend]
    norm_num

/-- C6 witness: a single update on a fresh estimator is still in warm-up, so
the slope is exactly 1. -/
theorem C6_slope_clamped_witness :
    ((mkLinearClockSync 200 12).update 5 7).params.a = 1 :=
  (C6_slope_clamped []).2.1 (mkLinearClockSync 200 12) 5 7
    (by norm_num [mkLinearClockSync, dequeAppend])

/-- Python `round()` on a real value: round half to even. -/
def roundHalfEven (q : ℚ) : ℤ :=
  if q - ⌊q⌋ < 1 / 2 then ⌊q⌋
  else if q - ⌊q⌋ > 1 / 2 then ⌊q⌋ + 1
  else if 2 ∣ ⌊q⌋ then ⌊q⌋ else ⌊q⌋ + 1

/-- `posture_engine.SegmentAngles`. -/
structure SegmentAngles where
  pitch : ℚ
  roll : ℚ
  yaw : ℚ
deriving DecidableEq, Repr

/-- One mode's block of `posture_engine.DEFAULT_THRESHOLDS`. -/
structure ModeThresholds where
  thor : Thresholds
  lum : Thresholds
deriving DecidableEq, Repr

/-- `posture_engine.DEFAULT_THRESHOLDS` as a lookup on the mode key. -/
def DEFAULT_THRESHOLDS (mode : String) : Option ModeThresholds :=
  if mode = "desk" then some ⟨⟨8, 15, 7, 12⟩, ⟨10, 18, 7, 12⟩⟩
  else if mode = "train" then some ⟨⟨12, 20, 10, 16⟩, ⟨14, 24, 10, 16⟩⟩
  else none

/-- `PostureEngine.thresholds`: normalize the mode string and fall back to
`desk` when the mode is unknown. -/
def thresholds_for (mode : String) : ModeThresholds :=
  match DEFAULT_THRESHOLDS mode.trim.toLower with
  | some t => t
  | none => ⟨⟨8, 15, 7, 12⟩, ⟨10, 18, 7, 12⟩⟩

/-- `posture_engine.AnnotatedSample`. -/
structure AnnotatedSample where
  ts_ms : ℤ
  T_pitch : ℚ
  T_roll : ℚ
  T_yaw : ℚ
  L_pitch : ℚ
  L_roll : ℚ
  L_yaw : ℚ
  thor_zone : Zone
  lum_zone : Zone
  comp_index : ℚ
deriving DecidableEq, Repr

/-- `posture_engine.PostureEngine`: stateful rolling window for the
compensation index. -/
structure PostureEngine where
  sample_rate_hz : ℚ
  comp_window_s : ℚ
  comp_scale_deg : ℚ
  comp_buf_maxlen : ℕ
  comp_buf : List ℚ
deriving DecidableEq, Repr

/-- `PostureEngine.__init__`: buffer capacity
`max(1, int(round(sample_rate_hz * comp_window_s)))`, empty window. -/
def mkPostureEngine (sample_rate_hz comp_window_s comp_scale_deg : ℚ) : PostureEngine :=
  ⟨sample_rate_hz, comp_window_s, comp_scale_deg,
   max 1 (roundHalfEven (sample_rate_hz * comp_window_s)).toNat, []⟩

/-- `PostureEngine.reset`: clear the rolling window. -/
def PostureEngine.reset (e : PostureEngine) : PostureEngine :=
  { e with comp_buf := [] }

/-- `PostureEngine.annotate`: classify both segments, push the clamped
per-sample compensation discrepancy into the rolling window, and emit the
window mean as `comp_index`. -/
def PostureEngine.annotate (e : PostureEngine) (ts_ms : ℤ)
    (thor lum : SegmentAngles) (mode : String) : PostureEngine × AnnotatedSample :=
  let th := thresholds_for mode
  let thor_zone := _zone_from_abs thor.pitch thor.roll th.thor
  let lum_zone := _zone_from_abs lum.pitch lum.roll th.lum
  let diff := lum.pitch - thor.pitch
  let comp_raw := _clamp (|diff| / max e.comp_scale_deg (1 / 1000000) * 100) 0 100
  let buf := dequeAppend e.comp_buf_maxlen e.comp_buf comp_raw
  let comp_index := buf.sum / ((max buf.length 1 : ℕ) : ℚ)
  ({ e with comp_buf := buf },
   ⟨ts_ms, thor.pitch, thor.roll, thor.yaw, lum.pitch, lum.roll, lum.yaw,
    thor_zone, lum_zone, comp_index⟩)

/-- Feed a list of `(ts, thor, lum, mode)` inputs through `annotate`,
collecting the emitted annotated samples. -/
def annotate_run : PostureEngine → List (ℤ × SegmentAngles × SegmentAngles × String) →
    PostureEngine × List AnnotatedSample
  | e, [] => (e, [])
  | e, i :: rest =>
      ((annotate_run (e.annotate i.1 i.2.1 i.2.2.1 i.2.2.2).1 rest).1,
       (e.annotate i.1 i.2.1 i.2.2.1 i.2.2.2).2 ::
         (annotate_run (e.annotate i.1 i.2.1 i.2.2.1 i.2.2.2).1 rest).2)

theorem mem_dequeAppend {α : Type} {maxlen : ℕ} {xs : List α} {x v : α}
    (h : v ∈ dequeAppend maxlen xs x) : v ∈ xs ∨ v = x := by
  have h2 : v ∈ xs ++ [x] := List.drop_subset _ _ h
  simpa using h2

theorem window_mean_mem (l : List ℚ) (h : ∀ v ∈ l, 0 ≤ v ∧ v ≤ 100) :
    0 ≤ l.sum / ((max l.length 1 : ℕ) : ℚ) ∧
      l.sum / ((max l.length 1 : ℕ) : ℚ) ≤ 100 := by
  have hn : (0 : ℚ) < ((max l.length 1 : ℕ) : ℚ) := by
    have : 1 ≤ max l.length 1 := le_max_right _ _
    exact_mod_cast Nat.lt_of_lt_of_le Nat.zero_lt_one this
  have hsum0 : 0 ≤ l.sum := List.sum_nonneg fun v hv => (h v hv).1
  have hsum1 : l.sum ≤ (l.length : ℚ) * 100 := by
    have := List.sum_le_card_nsmul l 100 fun v hv => (h v hv).2
    simpa [nsmul_eq_mul] using this
  constructor
  · exact div_nonneg hsum0 (le_of_lt hn)
  · rw [div_le_iff hn]
    have hle : (l.length : ℚ) ≤ ((max l.length 1 : ℕ) : ℚ) := by
      exact_mod_cast le_max_left l.length 1
    nlinarith

theorem annotate_comp_step (e : PostureEngine)
    (h : ∀ v ∈ e.comp_buf, 0 ≤ v ∧ v ≤ 100)
    (t : ℤ) (th lu : SegmentAngles) (m : String) :
    (∀ v ∈ (e.annotate t th lu m).1.comp_buf, 0 ≤ v ∧ v ≤ 100)
    ∧ 0 ≤ (e.annotate t th lu m).2.comp_index
    ∧ (e.annotate t th lu m).2.comp_index ≤ 100 := by
  have hbuf : ∀ v ∈ dequeAppend e.comp_buf_maxlen e.comp_buf
      (_clamp (|lu.pitch - th.pitch| / max e.comp_scale_deg (1 / 1000000) * 100) 0 100),
      0 ≤ v ∧ v ≤ 100 := by
    intro v hv
    rcases mem_dequeAppend hv with hv2 | hv2
    · exact h v hv2
    · subst hv2
      exact ⟨le_clamp _ (by norm_num), _clamp_le _ (by norm_num)⟩
  refine ⟨?_, ?_, ?_⟩
  · simpa [PostureEngine.annotate] using hbuf
  · simpa [PostureEngine.annotate] using (window_mean_mem _ hbuf).1
  · simpa [PostureEngine.annotate] using (window_mean_mem _ hbuf).2

theorem annotate_run_comp_mem
    (inputs : List (ℤ × SegmentAngles × SegmentAngles × String)) :
    ∀ e : PostureEngine, (∀ v ∈ e.comp_buf, 0 ≤ v ∧ v ≤ 100) →
    ∀ s ∈ (annotate_run e inputs).2, 0 ≤ s.comp_index ∧ s.comp_index ≤ 100 := by
  induction inputs with
  | nil => intro e _ s hs; simp [annotate_run] at hs
  | cons i rest ih =>
      intro e he s hs
      rcases (by simpa [annotate_run] using hs :
          s = (e.annotate i.1 i.2.1 i.2.2.1 i.2.2.2).2 ∨
            s ∈ (annotate_run (e.annotate i.1 i.2.1 i.2.2.1 i.2.2.2).1 rest).2) with h1 | h1
      · subst h1
        exact ⟨(annotate_comp_step e he i.1 i.2.1 i.2.2.1 i.2.2.2).2.1,
               (annotate_comp_step e he i.1 i.2.1 i.2.2.1 i.2.2.2).2.2⟩
      · exact ih _ (annotate_comp_step e he i.1 i.2.1 i.2.2.1 i.2.2.2).1 s h1

/-- C9: every compensation index emitted along any run from a fresh engine
lies in `[0, 100]`; and when the lumbar pitch equals the thoracic pitch the
value appended to the rolling window for that sample is exactly 0. -/
theorem C9_comp_index (inputs : List (ℤ × SegmentAngles × SegmentAngles × String))
    (rate window scale : ℚ) :
    (∀ s ∈ (annotate_run (mkPostureEngine rate window scale) inputs).2,
      0 ≤ s.comp_index ∧ s.comp_index ≤ 100)
    ∧ (∀ (e : PostureEngine) (t : ℤ) (th lu : SegmentAngles) (m : String),
        lu.pitch = th.pitch →
        (e.annotate t th lu m).1.comp_buf = dequeAppend e.comp_buf_maxlen e.comp_buf 0) := by
  constructor
  · exact annotate_run_comp_mem inputs (mkPostureEngine rate window scale)
      (by intro v hv; simp [mkPostureEngine] at hv)
  · intro e t th lu m hpe
    simp only [PostureEngine.annotate]
    rw [hpe, sub_self, abs_zero, zero_div, zero_mul]
    norm_num [_clamp]

/-- C9 witness: with equal thoracic and lumbar pitch the appended raw
compensation value is 0 on a concrete engine. -/
theorem C9_comp_index_witness :
    ((⟨50, 10, 25, 3, [7, 8]⟩ : PostureEngine).annotate 0 ⟨1, 2, 3⟩ ⟨1, 5, 6⟩ "desk").1.comp_buf =
      dequeAppend (⟨50, 10, 25, 3, [7, 8]⟩ : PostureEngine).comp_buf_maxlen
        (⟨50, 10, 25, 3, [7, 8]⟩ : PostureEngine).comp_buf 0 :=
  (C9_comp_index [] 50 10 25).2 ⟨50, 10, 25, 3, [7, 8]⟩ 0 ⟨1, 2, 3⟩ ⟨1, 5, 6⟩ "desk" rfl

/-- Calls issued to the storage collaborator `db` by the session recorder,
recorded as an event log. -/
inductive DBCall where
  | start_sensor_session (user_id : ℤ) (kind mode sport : String)
  | insert_sensor_samples_raw_batch (session_id : ℤ) (nrows : ℕ)
  | insert_sensor_samples_agg_batch (session_id : ℤ) (nrows : ℕ)
  | end_sensor_session (session_id : ℤ)
  | upsert_session_summary (session_id : ℤ)
  | recompute_daily (user_id : ℤ)
deriving DecidableEq, Repr

/-- One buffered RAW row (the 13-tuple built in `append_samples_batch`). -/
structure RawRow where
  session_id : ℤ
  ts_ms : ℤ
  T_pitch : ℚ
  T_roll : ℚ
  T_yaw : ℚ
  L_pitch : ℚ
  L_roll : ℚ
  L_yaw : ℚ
  thor_zone : Zone
  lum_zone : Zone
  comp_index : ℚ
  T_imu_ts_ms : Option ℤ
  L_imu_ts_ms : Option ℤ
deriving DecidableEq, Repr

/-- One buffered 1 Hz aggregate row. -/
structure AggRow where
  session_id : ℤ
  ts_s : ℤ
  T_pitch : ℚ
  L_pitch : ℚ
  thor_zone : Zone
  lum_zone : Zone
  comp_index : ℚ
deriving DecidableEq, Repr

/-- `session_recorder.RecorderConfig`. -/
structure RecorderConfig where
  user_id : ℤ
  kind : String
  mode : String
  sport : String
  sample_rate_hz : ℚ
  flush_every_s : ℚ
deriving DecidableEq, Repr

/-- `session_recorder.SessionRecorder` state. -/
structure SessionRecorder where
  cfg : RecorderConfig
  session_id : Option ℤ
  _engine : PostureEngine
  _raw_rows : List RawRow
  _last_flush_ms : Option ℤ
  _n : ℕ
  _thor_red : ℕ
  _lum_red : ℕ
  _alerts : ℕ
  _comp_sum : ℚ
  _comp_peak : ℚ
  _last_thor_zone : Option Zone
  _last_lum_zone : Option Zone
  _agg_rows : List AggRow
  _last_agg_s : Option ℤ
deriving DecidableEq, Repr

/-- `SessionRecorder.__init__(cfg)`: idle recorder, all counters zero.  The
engine is built with the config's sample rate and the engine defaults
`comp_window_s = 10`, `comp_scale_deg = 25`. -/
def mkSessionRecorder (cfg : RecorderConfig) : SessionRecorder :=
  ⟨cfg, none, mkPostureEngine cfg.sample_rate_hz 10 25,
   [], none, 0, 0, 0, 0, 0, 0, none, none, [], none⟩

/-- One incoming sample dict of `append_samples_batch`; `zones` is `some`
exactly when the dict carries all of `thor_zone`, `lum_zone`, `comp_index`. -/
structure InSample where
  ts_ms : ℤ
  T_pitch : ℚ
  T_roll : ℚ
  T_yaw : ℚ
  L_pitch : ℚ
  L_roll : ℚ
  L_yaw : ℚ
  zones : Option (Zone × Zone × ℚ)
  T_imu_ts_ms : Option ℤ
  L_imu_ts_ms : Option ℤ
deriving DecidableEq, Repr

/-- `SessionRecorder.start_session`: no-op returning the existing id when a
session is active; otherwise asks storage for a fresh id (modelled by the
`newSid` oracle argument) and stamps the flush clock with the current host
time `now_ms`. -/
def start_session (rec : SessionRecorder) (newSid now_ms : ℤ) :
    SessionRecorder × ℤ × List DBCall :=
  match rec.session_id with
  | some sid => (rec, sid, [])
  | none =>
      ({ rec with session_id := some newSid, _last_flush_ms := some now_ms },
       newSid,
       [DBCall.start_sensor_session rec.cfg.user_id rec.cfg.kind rec.cfg.mode rec.cfg.sport])

/-- The common tail of the per-sample loop body of `append_samples_batch`:
summary counters, alert-on-transition counter, RAW buffer and 1 Hz
aggregate buffer. -/
def process_core (rec : SessionRecorder) (s : InSample) (ts_ms : ℤ)
    (thor lum : SegmentAngles) (thor_zone lum_zone : Zone) (comp_index : ℚ)
    (engine2 : PostureEngine) : SessionRecorder :=
  let sid := rec.session_id.getD 0
  let ts_s := Int.fdiv ts_ms 1000
  let agg_new := match rec._last_agg_s with
    | none => true
    | some lastv => ts_s > lastv
  { rec with
    _engine := engine2,
    _n := rec._n + 1,
    _thor_red := rec._thor_red + (if thor_zone = Zone.red then 1 else 0),
    _lum_red := rec._lum_red + (if lum_zone = Zone.red then 1 else 0),
    _alerts := rec._alerts
      + (if rec._last_thor_zone ≠ some Zone.red ∧ thor_zone = Zone.red then 1 else 0)
      + (if rec._last_lum_zone ≠ some Zone.red ∧ lum_zone = Zone.red then 1 else 0),
    _last_thor_zone := some thor_zone,
    _last_lum_zone := some lum_zone,
    _comp_sum := rec._comp_sum + comp_index,
    _comp_peak := max rec._comp_peak comp_index,
    _raw_rows := rec._raw_rows ++
      [⟨sid, ts_ms, thor.pitch, thor.roll, thor.yaw, lum.pitch, lum.roll, lum.yaw,
        thor_zone, lum_zone, comp_index, s.T_imu_ts_ms, s.L_imu_ts_ms⟩],
    _last_agg_s := if agg_new then some ts_s else rec._last_agg_s,
    _agg_rows := if agg_new then rec._agg_rows ++
        [⟨sid, ts_s, thor.pitch, lum.pitch, thor_zone, lum_zone, comp_index⟩]
      else rec._agg_rows }

/-- One iteration of the per-sample loop of `append_samples_batch`: default
the timestamp to host time when missing/non-positive, take the zones and
compensation from the dict when present, otherwise run the engine. -/
def process_sample (rec : SessionRecorder) (s : InSample) (now_ms : ℤ) : SessionRecorder :=
  let ts_ms := if s.ts_ms ≤ 0 then now_ms else s.ts_ms
  let thor : SegmentAngles := ⟨s.T_pitch, s.T_roll, s.T_yaw⟩
  let lum : SegmentAngles := ⟨s.L_pitch, s.L_roll, s.L_yaw⟩
  match s.zones with
  | some z => process_core rec s ts_ms thor lum z.1 z.2.1 z.2.2 rec._engine
  | none =>
      process_core rec s ts_ms thor lum
        (rec._engine.annotate ts_ms thor lum rec.cfg.mode).2.thor_zone
        (rec._engine.annotate ts_ms thor lum rec.cfg.mode).2.lum_zone
        (rec._engine.annotate ts_ms thor lum rec.cfg.mode).2.comp_index
        (rec._engine.annotate ts_ms thor lum rec.cfg.mode).1

/-- `SessionRecorder.flush`: hand both buffers to storage and clear them
(no-op with no active session). -/
def SessionRecorder.flush (rec : SessionRecorder) : SessionRecorder × List DBCall :=
  match rec.session_id with
  | none => (rec, [])
  | some sid =>
      ({ rec with _raw_rows := [], _agg_rows := [] },
       (if rec._raw_rows ≠ [] then [DBCall.insert_sensor_samples_raw_batch sid rec._raw_rows.length] else [])
       ++ (if rec._agg_rows ≠ [] then [DBCall.insert_sensor_samples_agg_batch sid rec._agg_rows.length] else []))

/-- `SessionRecorder._maybe_flush`: flush only when `flush_every_s` (in ms,
truncated to int) has elapsed since the last flush stamp. -/
def _maybe_flush (rec : SessionRecorder) (now_ms : ℤ) : SessionRecorder × List DBCall :=
  match rec.session_id with
  | none => (rec, [])
  | some _ =>
      let lastv := rec._last_flush_ms.getD now_ms
      if now_ms - lastv < float_to_int (rec.cfg.flush_every_s * 1000) then
        ({ rec with _last_flush_ms := some lastv }, [])
      else
        let fl := rec.flush
        ({ fl.1 with _last_flush_ms := some now_ms }, fl.2)

/-- `SessionRecorder.append_samples_batch`: empty batches return immediately;
with no active session the recorder auto-starts one (allocating `newSid`);
then each sample is processed in order and a time-based flush may follow. -/
def append_samples_batch (rec : SessionRecorder) (samples : List InSample)
    (now_ms newSid : ℤ) : SessionRecorder × List DBCall :=
  if samples = [] then (rec, [])
  else
    let st := match rec.session_id with
      | none =>
          ((start_session rec newSid now_ms).1, (start_session rec newSid now_ms).2.2)
      | some _ => (rec, [])
    let rec2 := samples.foldl (fun a s => process_sample a s now_ms) st.1
    let mf := _maybe_flush rec2 now_ms
    (mf.1, st.2 ++ mf.2)

/-- The in-memory session summary dict built by
`stop_session_and_compute_summary` (the `daily` sub-payload is produced by
storage and is represented only by the emitted `recompute_daily` call). -/
structure Summary where
  session_id : ℤ
  duration_s : ℚ
  thor_red_s : ℚ
  lum_red_s : ℚ
  alerts_count : ℕ
  comp_avg : ℚ
  comp_peak : ℚ
  risk_index : ℚ
deriving DecidableEq, Repr

/-- `SessionRecorder.stop_session_and_compute_summary`: raises (`.error`)
with no active session; otherwise flushes, closes the session, computes the
sample-count-derived metrics, persists the summary, triggers the daily
recompute and resets the recorder to idle. -/
def stop_session_and_compute_summary (rec : SessionRecorder) :
    Except String (SessionRecorder × Summary × List DBCall) :=
  match rec.session_id with
  | none => Except.error "No hay sesión activa"
  | some sid =>
      let fl := rec.flush
      let rate := max rec.cfg.sample_rate_hz (1 / 1000000)
      let dur_s := (rec._n : ℚ) / rate
      let thor_red_s := (rec._thor_red : ℚ) / rate
      let lum_red_s := (rec._lum_red : ℚ) / rate
      let comp_avg := rec._comp_sum / max (rec._n : ℚ) 1
      let risk := compute_risk_index dur_s thor_red_s lum_red_s comp_avg
      Except.ok
        ({ rec with session_id := none, _engine := rec._engine.reset,
                    _raw_rows := [], _agg_rows := [], _last_flush_ms := none,
                    _n := 0, _thor_red := 0, _lum_red := 0, _alerts := 0,
                    _comp_sum := 0, _comp_peak := 0,
                    _last_thor_zone := none, _last_lum_zone := none, _last_agg_s := none },
         ⟨sid, dur_s, thor_red_s, lum_red_s, rec._alerts, comp_avg, rec._comp_peak, risk⟩,
         fl.2 ++ [DBCall.end_sensor_session sid, DBCall.upsert_session_summary sid,
                  DBCall.recompute_daily rec.cfg.user_id])

theorem process_sample_fields (r : SessionRecorder) (s : InSample) (now : ℤ) :
    (process_sample r s now)._n = r._n + 1
    ∧ ((process_sample r s now)._thor_red = r._thor_red ∨
        (process_sample r s now)._thor_red = r._thor_red + 1)
    ∧ ((process_sample r s now)._lum_red = r._lum_red ∨
        (process_sample r s now)._lum_red = r._lum_red + 1)
    ∧ (process_sample r s now).session_id = r.session_id
    ∧ (process_sample r s now).cfg = r.cfg := by
  cases hz : s.zones with
  | none =>
      simp only [process_sample, process_core, hz]
      refine ⟨by trivial, ?_, ?_, by trivial, by trivial⟩ <;> split_ifs <;> simp
  | some z =>
      simp only [process_sample, process_core, hz]
      refine ⟨by trivial, ?_, ?_, by trivial, by trivial⟩ <;> split_ifs <;> simp

theorem foldl_process_inv (samples : List InSample) (now : ℤ) : ∀ r : SessionRecorder,
    (samples.foldl (fun a s => process_sample a s now) r)._n = r._n + samples.length
    ∧ (r._thor_red ≤ r._n →
        (samples.foldl (fun a s => process_sample a s now) r)._thor_red ≤
          (samples.foldl (fun a s => process_sample a s now) r)._n)
    ∧ (r._lum_red ≤ r._n →
        (samples.foldl (fun a s => process_sample a s now) r)._lum_red ≤
          (samples.foldl (fun a s => process_sample a s now) r)._n)
    ∧ (samples.foldl (fun a s => process_sample a s now) r).session_id = r.session_id
    ∧ (samples.foldl (fun a s => process_sample a s now) r).cfg = r.cfg := by
  induction samples with
  | nil => intro r; simp
  | cons s ss ih =>
      intro r
      obtain ⟨h1, h2, h3, h4, h5⟩ := process_sample_fields r s now
      obtain ⟨g1, g2, g3, g4, g5⟩ := ih (process_sample r s now)
      simp only [List.foldl_cons]
      refine ⟨?_, ?_, ?_, ?_, ?_⟩
      · rw [g1, h1, List.length_cons]; omega
      · intro hle
        exact g2 (by rcases h2 with h2 | h2 <;> omega)
      · intro hle
        exact g3 (by rcases h3 with h3 | h3 <;> omega)
      · rw [g4, h4]
      · rw [g5, h5]

theorem flush_fields (r : SessionRecorder) :
    (r.flush).1._n = r._n ∧ (r.flush).1._thor_red = r._thor_red
    ∧ (r.flush).1._lum_red = r._lum_red
    ∧ (r.flush).1.session_id = r.session_id ∧ (r.flush).1.cfg = r.cfg := by
  cases hs : r.session_id with
  | none => simp [SessionRecorder.flush, hs]
  | some sid => simp [SessionRecorder.flush, hs]

theorem maybe_flush_fields (r : SessionRecorder) (now : ℤ) :
    (_maybe_flush r now).1._n = r._n ∧ (_maybe_flush r now).1._thor_red = r._thor_red
    ∧ (_maybe_flush r now).1._lum_red = r._lum_red
    ∧ (_maybe_flush r now).1.session_id = r.session_id
    ∧ (_maybe_flush r now).1.cfg = r.cfg := by
  cases hs : r.session_id with
  | none => simp [_maybe_flush, hs]
  | some sid =>
      obtain ⟨f1, f2, f3, f4, f5⟩ := flush_fields r
      simp only [_maybe_flush, hs]
      split_ifs <;> simp_all

theorem append_inv (samples : List InSample) (r : SessionRecorder) (now ns : ℤ) :
    (append_samples_batch r samples now ns).1._n = r._n + samples.length
    ∧ (r._thor_red ≤ r._n →
        (append_samples_batch r samples now ns).1._thor_red ≤
          (append_samples_batch r samples now ns).1._n)
    ∧ (r._lum_red ≤ r._n →
        (append_samples_batch r samples now ns).1._lum_red ≤
          (append_samples_batch r samples now ns).1._n)
    ∧ (∀ sid, r.session_id = some sid →
        (append_samples_batch r samples now ns).1.session_id = some sid)
    ∧ (append_samples_batch r samples now ns).1.cfg = r.cfg := by
  by_cases hemp : samples = []
  · subst hemp; simp [append_samples_batch]
  · cases hs : r.session_id with
    | none =>
        simp only [append_samples_batch, if_neg hemp, hs, start_session]
        obtain ⟨g1, g2, g3, g4, g5⟩ := foldl_process_inv samples now
          { r with session_id := some ns, _last_flush_ms := some now }
        obtain ⟨m1, m2, m3, m4, m5⟩ := maybe_flush_fields
          (samples.foldl (fun a s => process_sample a s now)
            { r with session_id := some ns, _last_flush_ms := some now }) now
        refine ⟨by rw [m1, g1], ?_, ?_, ?_, by rw [m5, g5]⟩
        · intro hle; rw [m2, m1]; exact g2 hle
        · intro hle; rw [m3, m1]; exact g3 hle
        · intro sid hsid; simp at hsid
    | some sid0 =>
        simp only [append_samples_batch, if_neg hemp, hs]
        obtain ⟨g1, g2, g3, g4, g5⟩ := foldl_process_inv samples now r
        obtain ⟨m1, m2, m3, m4, m5⟩ := maybe_flush_fields
          (samples.foldl (fun a s => process_sample a s now) r) now
        refine ⟨by rw [m1, g1], ?_, ?_, ?_, by rw [m5, g5]⟩
        · intro hle; rw [m2, m1]; exact g2 hle
        · intro hle; rw [m3, m1]; exact g3 hle
        · intro sid hsid; rw [m4, g4, hs]; exact hsid

/-- Fold a list of `(samples, now_ms, newSid)` batches through
`append_samples_batch`, keeping only the recorder state. -/
def append_run (rec : SessionRecorder) (batches : List (List InSample × ℤ × ℤ)) :
    SessionRecorder :=
  batches.foldl (fun r b => (append_samples_batch r b.1 b.2.1 b.2.2).1) rec

theorem append_run_inv (batches : List (List InSample × ℤ × ℤ)) :
    ∀ r : SessionRecorder,
    (append_run r batches)._n = r._n + (batches.map (fun b => b.1.length)).sum
    ∧ (r._thor_red ≤ r._n → (append_run r batches)._thor_red ≤ (append_run r batches)._n)
    ∧ (r._lum_red ≤ r._n → (append_run r batches)._lum_red ≤ (append_run r batches)._n)
    ∧ (∀ sid, r.session_id = some sid → (append_run r batches).session_id = some sid)
    ∧ (append_run r batches).cfg = r.cfg := by
  induction batches with
  | nil => intro r; simp [append_run]
  | cons b bs ih =>
      intro r
      obtain ⟨h1, h2, h3, h4, h5⟩ := append_inv b.1 r b.2.1 b.2.2
      obtain ⟨g1, g2, g3, g4, g5⟩ := ih (append_samples_batch r b.1 b.2.1 b.2.2).1
      have hrun : append_run r (b :: bs) =
          append_run (append_samples_batch r b.1 b.2.1 b.2.2).1 bs := by
        simp [append_run]
      refine ⟨?_, ?_, ?_, ?_, ?_⟩
      · rw [hrun, g1, h1]; simp; omega
      · intro hle; rw [hrun]; exact g2 (h2 hle)
      · intro hle; rw [hrun]; exact g3 (h3 hle)
      · intro sid hsid; rw [hrun]; exact g4 sid (h4 sid hsid)
      · rw [hrun, g5, h5]

/-- A freshly constructed recorder on which `start_session` has been called
once (storage allocated `sid` at host time `now0`). -/
def started_recorder (cfg : RecorderConfig) (sid now0 : ℤ) : SessionRecorder :=
  (start_session (mkSessionRecorder cfg) sid now0).1

theorem started_recorder_fields (cfg : RecorderConfig) (sid now0 : ℤ) :
    (started_recorder cfg sid now0).session_id = some sid
    ∧ (started_recorder cfg sid now0)._n = 0
    ∧ (started_recorder cfg sid now0)._thor_red = 0
    ∧ (started_recorder cfg sid now0)._lum_red = 0
    ∧ (started_recorder cfg sid now0).cfg = cfg := by
  refine ⟨rfl, rfl, rfl, rfl, rfl⟩

theorem stop_eq_of_some (rec : SessionRecorder) (sid : ℤ) (h : rec.session_id = some sid) :
    stop_session_and_compute_summary rec = Except.ok
      ({ rec with session_id := none, _engine := rec._engine.reset,
                  _raw_rows := [], _agg_rows := [], _last_flush_ms := none,
                  _n := 0, _thor_red := 0, _lum_red := 0, _alerts := 0,
                  _comp_sum := 0, _comp_peak := 0,
                  _last_thor_zone := none, _last_lum_zone := none, _last_agg_s := none },
       ⟨sid, (rec._n : ℚ) / max rec.cfg.sample_rate_hz (1 / 1000000),
         (rec._thor_red : ℚ) / max rec.cfg.sample_rate_hz (1 / 1000000),
         (rec._lum_red : ℚ) / max rec.cfg.sample_rate_hz (1 / 1000000),
         rec._alerts, rec._comp_sum / max (rec._n : ℚ) 1, rec._comp_peak,
         compute_risk_index ((rec._n : ℚ) / max rec.cfg.sample_rate_hz (1 / 1000000))
           ((rec._thor_red : ℚ) / max rec.cfg.sample_rate_hz (1 / 1000000))
           ((rec._lum_red : ℚ) / max rec.cfg.sample_rate_hz (1 / 1000000))
           (rec._comp_sum / max (rec._n : ℚ) 1)⟩,
       (rec.flush).2 ++ [DBCall.end_sensor_session sid, DBCall.upsert_session_summary sid,
                  DBCall.recompute_daily rec.cfg.user_id]) := by
  simp only [stop_session_and_compute_summary, h]

/-- C3: stopping after any sequence of appended batches reports
`duration_s = n / sample_rate_hz` with `n` the total number of appended
samples (sample-count-derived, independent of the batches' host timestamps),
the red dwell seconds come from the accumulated counters, and for each
segment red seconds plus non-red seconds equals `duration_s` exactly. -/
theorem C3_duration_sample_count (cfg : RecorderConfig) (sid now0 : ℤ)
    (batches : List (List InSample × ℤ × ℤ))
    (hrate : (1 : ℚ) / 1000000 ≤ cfg.sample_rate_hz) :
    ∃ rec3 summary calls,
      stop_session_and_compute_summary (append_run (started_recorder cfg sid now0) batches) =
        Except.ok (rec3, summary, calls)
      ∧ summary.duration_s =
          ((append_run (started_recorder cfg sid now0) batches)._n : ℚ) / cfg.sample_rate_hz
      ∧ (append_run (started_recorder cfg sid now0) batches)._n =
          (batches.map (fun b => b.1.length)).sum
      ∧ summary.thor_red_s =
          ((append_run (started_recorder cfg sid now0) batches)._thor_red : ℚ) / cfg.sample_rate_hz
      ∧ summary.lum_red_s =
          ((append_run (started_recorder cfg sid now0) batches)._lum_red : ℚ) / cfg.sample_rate_hz
      ∧ summary.thor_red_s +
          (((append_run (started_recorder cfg sid now0) batches)._n : ℚ) -
            ((append_run (started_recorder cfg sid now0) batches)._thor_red : ℚ)) / cfg.sample_rate_hz
          = summary.duration_s
      ∧ summary.lum_red_s +
          (((append_run (started_recorder cfg sid now0) batches)._n : ℚ) -
            ((append_run (started_recorder cfg sid now0) batches)._lum_red : ℚ)) / cfg.sample_rate_hz
          = summary.duration_s
      ∧ (append_run (started_recorder cfg sid now0) batches)._thor_red ≤
          (append_run (started_recorder cfg sid now0) batches)._n
      ∧ (append_run (started_recorder cfg sid now0) batches)._lum_red ≤
          (append_run (started_recorder cfg sid now0) batches)._n := by
  obtain ⟨s1, s2, s3, s4, s5⟩ := started_recorder_fields cfg sid now0
  obtain ⟨r1, r2, r3, r4, r5⟩ := append_run_inv batches (started_recorder cfg sid now0)
  have hmax : max cfg.sample_rate_hz (1 / 1000000 : ℚ) = cfg.sample_rate_hz :=
    max_eq_left hrate
  have hsid : (append_run (started_recorder cfg sid now0) batches).session_id = some sid :=
    r4 sid s1
  have hcfg : (append_run (started_recorder cfg sid now0) batches).cfg = cfg := by
    rw [r5, s5]
  refine ⟨_, _, _,
    stop_eq_of_some (append_run (started_recorder cfg sid now0) batches) sid hsid,
    ?_, ?_, ?_, ?_, ?_, ?_, ?_, ?_⟩
  · show ((append_run (started_recorder cfg sid now0) batches)._n : ℚ) /
        max (append_run (started_recorder cfg sid now0) batches).cfg.sample_rate_hz (1 / 1000000) =
      ((append_run (started_recorder cfg sid now0) batches)._n : ℚ) / cfg.sample_rate_hz
    rw [hcfg, hmax]
  · rw [r1, s2]; omega
  · show ((append_run (started_recorder cfg sid now0) batches)._thor_red : ℚ) /
        max (append_run (started_recorder cfg sid now0) batches).cfg.sample_rate_hz (1 / 1000000) =
      ((append_run (started_recorder cfg sid now0) batches)._thor_red : ℚ) / cfg.sample_rate_hz
    rw [hcfg, hmax]
  · show ((append_run (started_recorder cfg sid now0) batches)._lum_red : ℚ) /
        max (append_run (started_recorder cfg sid now0) batches).cfg.sample_rate_hz (1 / 1000000) =
      ((append_run (started_recorder cfg sid now0) batches)._lum_red : ℚ) / cfg.sample_rate_hz
    rw [hcfg, hmax]
  · show ((append_run (started_recorder cfg sid now0) batches)._thor_red : ℚ) /
        max (append_run (started_recorder cfg sid now0) batches).cfg.sample_rate_hz (1 / 1000000)
        + _ = ((append_run (started_recorder cfg sid now0) batches)._n : ℚ) /
          max (append_run (started_recorder cfg sid now0) batches).cfg.sample_rate_hz (1 / 1000000)
    rw [hcfg, hmax, div_add_div_same]
    congr 1
    ring
  · show ((append_run (started_recorder cfg sid now0) batches)._lum_red : ℚ) /
        max (append_run (started_recorder cfg sid now0) batches).cfg.sample_rate_hz (1 / 1000000)
        + _ = ((append_run (started_recorder cfg sid now0) batches)._n : ℚ) /
          max (append_run (started_recorder cfg sid now0) batches).cfg.sample_rate_hz (1 / 1000000)
    rw [hcfg, hmax, div_add_div_same]
    congr 1
    ring
  · exact r2 (by rw [s2, s3])
  · exact r3 (by rw [s2, s4])

/-- Example recorder config used by the concrete witnesses. -/
def cfgEx : RecorderConfig := ⟨1, "monitor", "desk", "gym", 50, 2⟩

/-- Example pre-annotated input sample used by the concrete witnesses. -/
def sampleEx : InSample := ⟨1000, 1, 2, 3, 4, 5, 6, some (Zone.red, Zone.green, 10), none, none⟩

/-- C3 witness: one batch of two pre-annotated samples at 50 Hz. -/
theorem C3_duration_sample_count_witness :
    ∃ rec3 summary calls,
      stop_session_and_compute_summary
          (append_run (started_recorder cfgEx 1 0) [([sampleEx, sampleEx], 1000, 9)]) =
        Except.ok (rec3, summary, calls)
      ∧ summary.duration_s =
          ((append_run (started_recorder cfgEx 1 0) [([sampleEx, sampleEx], 1000, 9)])._n : ℚ) /
            cfgEx.sample_rate_hz
      ∧ (append_run (started_recorder cfgEx 1 0) [([sampleEx, sampleEx], 1000, 9)])._n =
          ([([sampleEx, sampleEx], 1000, 9)].map
            (fun b : List InSample × ℤ × ℤ => b.1.length)).sum
      ∧ summary.thor_red_s =
          ((append_run (started_recorder cfgEx 1 0) [([sampleEx, sampleEx], 1000, 9)])._thor_red : ℚ) /
            cfgEx.sample_rate_hz
      ∧ summary.lum_red_s =
          ((append_run (started_recorder cfgEx 1 0) [([sampleEx, sampleEx], 1000, 9)])._lum_red : ℚ) /
            cfgEx.sample_rate_hz
      ∧ summary.thor_red_s +
          (((append_run (started_recorder cfgEx 1 0) [([sampleEx, sampleEx], 1000, 9)])._n : ℚ) -
            ((append_run (started_recorder cfgEx 1 0) [([sampleEx, sampleEx], 1000, 9)])._thor_red : ℚ)) /
              cfgEx.sample_rate_hz = summary.duration_s
      ∧ summary.lum_red_s +
          (((append_run (started_recorder cfgEx 1 0) [([sampleEx, sampleEx], 1000, 9)])._n : ℚ) -
            ((append_run (started_recorder cfgEx 1 0) [([sampleEx, sampleEx], 1000, 9)])._lum_red : ℚ)) /
              cfgEx.sample_rate_hz = summary.duration_s
      ∧ (append_run (started_recorder cfgEx 1 0) [([sampleEx, sampleEx], 1000, 9)])._thor_red ≤
          (append_run (started_recorder cfgEx 1 0) [([sampleEx, sampleEx], 1000, 9)])._n
      ∧ (append_run (started_recorder cfgEx 1 0) [([sampleEx, sampleEx], 1000, 9)])._lum_red ≤
          (append_run (started_recorder cfgEx 1 0) [([sampleEx, sampleEx], 1000, 9)])._n :=
  C3_duration_sample_count cfgEx 1 0 [([sampleEx, sampleEx], 1000, 9)] (by norm_num [cfgEx])

/-- C7 (counterexample): calling append on an idle recorder with a non-empty
batch does NOT signal NotRecording — it allocates session 42 (mutating
`session_id`) and invokes the storage collaborator. -/
theorem C7_counterexample :
    (mkSessionRecorder cfgEx).session_id = none
    ∧ (append_samples_batch (mkSessionRecorder cfgEx) [sampleEx] 1000 42).1.session_id = some 42
    ∧ DBCall.start_sensor_session 1 "monitor" "desk" "gym"
        ∈ (append_samples_batch (mkSessionRecorder cfgEx) [sampleEx] 1000 42).2 := by
  have hne : ([sampleEx] : List InSample) ≠ [] := by simp
  have hnone : (mkSessionRecorder cfgEx).session_id = none := rfl
  refine ⟨rfl, ?_, ?_⟩
  · obtain ⟨_, _, _, g4, _⟩ := foldl_process_inv [sampleEx] 1000
      { mkSessionRecorder cfgEx with session_id := some 42, _last_flush_ms := some 1000 }
    obtain ⟨_, _, _, m4, _⟩ := maybe_flush_fields
      ([sampleEx].foldl (fun a s => process_sample a s 1000)
        { mkSessionRecorder cfgEx with session_id := some 42, _last_flush_ms := some 1000 }) 1000
    simp only [append_samples_batch, if_neg hne, hnone, start_session]
    rw [m4, g4]
  · simp only [append_samples_batch, if_neg hne, hnone, start_session]
    exact List.mem_append_left _ (List.mem_singleton.mpr rfl)

/-- C7 (amended): stop with no active session signals NotRecording (raises)
without mutating state or calling storage; append with an empty batch is a
no-op; but append with a non-empty batch and no active session auto-starts a
session — it sets `session_id` and calls the storage collaborator instead of
signaling. -/
theorem C7_not_recording (rec : SessionRecorder) (samples : List InSample)
    (now sid : ℤ) (h : rec.session_id = none) :
    stop_session_and_compute_summary rec = Except.error "No hay sesión activa"
    ∧ append_samples_batch rec [] now sid = (rec, [])
    ∧ (samples ≠ [] →
        (append_samples_batch rec samples now sid).1.session_id = some sid
        ∧ DBCall.start_sensor_session rec.cfg.user_id rec.cfg.kind rec.cfg.mode rec.cfg.sport
            ∈ (append_samples_batch rec samples now sid).2) := by
  refine ⟨?_, ?_, ?_⟩
  · simp only [stop_session_and_compute_summary, h]
  · simp [append_samples_batch]
  · intro hne
    constructor
    · obtain ⟨_, _, _, g4, _⟩ := foldl_process_inv samples now
        { rec with session_id := some sid, _last_flush_ms := some now }
      obtain ⟨_, _, _, m4, _⟩ := maybe_flush_fields
        (samples.foldl (fun a s => process_sample a s now)
          { rec with session_id := some sid, _last_flush_ms := some now }) now
      simp only [append_samples_batch, if_neg hne, h, start_session]
      rw [m4, g4]
    · simp only [append_samples_batch, if_neg hne, h, start_session]
      exact List.mem_append_left _ (List.mem_singleton.mpr rfl)

/-- C7 witness: on a concrete idle recorder, stop raises and an empty append
is a no-op, while a one-sample append auto-starts session 42. -/
theorem C7_not_recording_witness :
    stop_session_and_compute_summary (mkSessionRecorder cfgEx) =
        Except.error "No hay sesión activa"
    ∧ append_samples_batch (mkSessionRecorder cfgEx) [] 1000 42 = (mkSessionRecorder cfgEx, [])
    ∧ ([sampleEx] ≠ ([] : List InSample) →
        (append_samples_batch (mkSessionRecorder cfgEx) [sampleEx] 1000 42).1.session_id = some 42
        ∧ DBCall.start_sensor_session (mkSessionRecorder cfgEx).cfg.user_id
            (mkSessionRecorder cfgEx).cfg.kind (mkSessionRecorder cfgEx).cfg.mode
            (mkSessionRecorder cfgEx).cfg.sport
            ∈ (append_samples_batch (mkSessionRecorder cfgEx) [sampleEx] 1000 42).2) :=
  C7_not_recording (mkSessionRecorder cfgEx) [sampleEx] 1000 42 rfl

/-- C10: `start_session` is idempotent while a session is active — with
`session_id` set it returns the same identifier, leaves the state untouched
and emits no storage call; hence the second of two consecutive
`start_session` calls never opens a second session. -/
theorem C10_start_session_idempotent (rec : SessionRecorder) (sid ns now ns2 now2 : ℤ)
    (h : rec.session_id = some sid) :
    start_session rec ns now = (rec, sid, [])
    ∧ ∀ (r : SessionRecorder) (ns1 now1 : ℤ),
        start_session (start_session r ns1 now1).1 ns2 now2 =
          ((start_session r ns1 now1).1, (start_session r ns1 now1).2.1, []) := by
  constructor
  · simp only [start_session, h]
  · intro r ns1 now1
    cases hr : r.session_id with
    | some s => simp [start_session, hr]
    | none => simp [start_session, hr]

/-- Example active recorder used by the C10 witness. -/
def recEx : SessionRecorder := { mkSessionRecorder cfgEx with session_id := some 5 }

/-- C10 witness: on a concrete recorder with session 5 active,
`start_session` returns the active id unchanged with no storage call. -/
theorem C10_start_session_idempotent_witness :
    start_session recEx 9 100 = (recEx, 5, []) :=
  (C10_start_session_idempotent recEx 5 9 100 7 200 rfl).1

/-- One completed `session_summary` row as read by
`db.recompute_daily_summary`. -/
structure SessionSummaryRow where
  duration_s : ℚ
  thor_red_s : ℚ
  lum_red_s : ℚ
  alerts_count : ℤ
  comp_avg : ℚ
  comp_peak : ℚ
  risk_index : ℚ
deriving DecidableEq, Repr

/-- SQL `MAX` over a column, with the `COALESCE(..., 0)` default on the
empty set. -/
def sqlMax (l : List ℚ) : ℚ :=
  match l with
  | [] => 0
  | x :: xs => xs.foldl max x

/-- The `daily_summary` payload produced by `db.recompute_daily_summary`. -/
structure DailySummary where
  sessions_count : ℕ
  duration_s : ℚ
  thor_red_s : ℚ
  lum_red_s : ℚ
  alerts_count : ℤ
  comp_avg : ℚ
  comp_peak : ℚ
  risk_index_avg : ℚ
  risk_index_max : ℚ
deriving DecidableEq, Repr

/-- The aggregation SELECT of `db.recompute_daily_summary` over the completed
sessions of one (user, day): `COUNT` / `SUM` / `AVG` / `MAX`, with SQL's
NULL-on-empty aggregates turned into 0 by `COALESCE`. -/
def recompute_daily_summary (rows : List SessionSummaryRow) : DailySummary :=
  { sessions_count := rows.length,
    duration_s := (rows.map (fun r => r.duration_s)).sum,
    thor_red_s := (rows.map (fun r => r.thor_red_s)).sum,
    lum_red_s := (rows.map (fun r => r.lum_red_s)).sum,
    alerts_count := (rows.map (fun r => r.alerts_count)).sum,
    comp_avg := if rows.length = 0 then 0
      else (rows.map (fun r => r.comp_avg)).sum / (rows.length : ℚ),
    comp_peak := sqlMax (rows.map (fun r => r.comp_peak)),
    risk_index_avg := if rows.length = 0 then 0
      else (rows.map (fun r => r.risk_index)).sum / (rows.length : ℚ),
    risk_index_max := sqlMax (rows.map (fun r => r.risk_index)) }

theorem foldl_max_mem (xs : List ℚ) : ∀ a : ℚ, xs.foldl max a = a ∨ xs.foldl max a ∈ xs := by
  induction xs with
  | nil => intro a; left; rfl
  | cons x xs ih =>
      intro a
      rcases ih (max a x) with h | h
      · rcases max_choice a x with hm | hm
        · left; simpa [hm] using h
        · right; rw [List.foldl_cons, h, hm]; exact List.mem_cons_self x xs
      · right; exact List.mem_cons_of_mem x h

theorem le_foldl_max (xs : List ℚ) : ∀ a : ℚ,
    a ≤ xs.foldl max a ∧ ∀ x ∈ xs, x ≤ xs.foldl max a := by
  induction xs with
  | nil => intro a; exact ⟨le_refl a, by simp⟩
  | cons y ys ih =>
      intro a
      obtain ⟨h1, h2⟩ := ih (max a y)
      refine ⟨le_trans (le_max_left a y) h1, ?_⟩
      intro x hx
      rcases List.mem_cons.mp hx with hx | hx
      · subst hx; exact le_trans (le_max_right a x) h1
      · exact h2 x hx

theorem sqlMax_mem {l : List ℚ} (h : l ≠ []) : sqlMax l ∈ l := by
  cases l with
  | nil => exact absurd rfl h
  | cons x xs =>
      rcases foldl_max_mem xs x with h2 | h2
      · rw [sqlMax, h2]; exact List.mem_cons_self x xs
      · rw [sqlMax]; exact List.mem_cons_of_mem x h2

theorem le_sqlMax {l : List ℚ} {x : ℚ} (hx : x ∈ l) : x ≤ sqlMax l := by
  cases l with
  | nil => cases hx
  | cons y ys =>
      rcases List.mem_cons.mp hx with h | h
      · subst h; exact (le_foldl_max ys x).1
      · exact (le_foldl_max ys y).2 x h

/-- C8: on a non-empty set of completed session summaries the daily rollup is
the count, the per-session sums, the unweighted means of `comp_avg` and
`risk_index`, and the maxima of `comp_peak` and `risk_index` (stated as: the
reported maximum is attained and dominates every row). -/
theorem C8_daily_recompute (rows : List SessionSummaryRow) (h : rows ≠ []) :
    (recompute_daily_summary rows).sessions_count = rows.length
    ∧ (recompute_daily_summary rows).duration_s = (rows.map (fun r => r.duration_s)).sum
    ∧ (recompute_daily_summary rows).thor_red_s = (rows.map (fun r => r.thor_red_s)).sum
    ∧ (recompute_daily_summary rows).lum_red_s = (rows.map (fun r => r.lum_red_s)).sum
    ∧ (recompute_daily_summary rows).alerts_count = (rows.map (fun r => r.alerts_count)).sum
    ∧ (recompute_daily_summary rows).comp_avg =
        (rows.map (fun r => r.comp_avg)).sum / (rows.length : ℚ)
    ∧ (recompute_daily_summary rows).risk_index_avg =
        (rows.map (fun r => r.risk_index)).sum / (rows.length : ℚ)
    ∧ (recompute_daily_summary rows).comp_peak ∈ rows.map (fun r => r.comp_peak)
    ∧ (∀ x ∈ rows.map (fun r => r.comp_peak), x ≤ (recompute_daily_summary rows).comp_peak)
    ∧ (recompute_daily_summary rows).risk_index_max ∈ rows.map (fun r => r.risk_index)
    ∧ (∀ x ∈ rows.map (fun r => r.risk_index),
        x ≤ (recompute_daily_summary rows).risk_index_max) := by
  have hlen : rows.length ≠ 0 := fun hc => h (List.length_eq_zero.mp hc)
  have hm1 : rows.map (fun r => r.comp_peak) ≠ [] := by
    simpa [List.map_eq_nil] using h
  have hm2 : rows.map (fun r => r.risk_index) ≠ [] := by
    simpa [List.map_eq_nil] using h
  refine ⟨rfl, rfl, rfl, rfl, rfl, ?_, ?_, ?_, ?_, ?_, ?_⟩
  · simp [recompute_daily_summary, hlen]
  · simp [recompute_daily_summary, hlen]
  · exact sqlMax_mem hm1
  · intro x hx; exact le_sqlMax hx
  · exact sqlMax_mem hm2
  · intro x hx; exact le_sqlMax hx

/-- Example completed-session rows (risk 40 and 80) for the C8 witness. -/
def row40 : SessionSummaryRow := ⟨600, 10, 5, 1, 20, 30, 40⟩

/-- Second example row for the C8 witness. -/
def row80 : SessionSummaryRow := ⟨300, 8, 2, 0, 10, 50, 80⟩

/-- C8 witness: two sessions with risk 40 and 80 yield
`risk_index_avg = 60` and `risk_index_max = 80`. -/
theorem C8_daily_recompute_witness :
    (recompute_daily_summary [row40, row80]).risk_index_avg = 60
    ∧ (recompute_daily_summary [row40, row80]).risk_index_max = 80 := by
  obtain ⟨_, _, _, _, _, _, havg, _, _, hmem, hle⟩ :=
    C8_daily_recompute [row40, row80] (by simp)
  constructor
  · rw [havg]; norm_num [row40, row80]
  · have h80 : (80 : ℚ) ≤ (recompute_daily_summary [row40, row80]).risk_index_max := by
      apply hle; simp [row40, row80]
    have hcases : (recompute_daily_summary [row40, row80]).risk_index_max = (40 : ℚ) ∨
        (recompute_daily_summary [row40, row80]).risk_index_max = (80 : ℚ) := by
      simpa [row40, row80] using hmem
    rcases hcases with hc | hc
    · rw [hc] at h80; norm_num at h80
    · exact hc

/-- The three alert kinds fired by the monitor view's per-sample loop
(`"thor"`, `"lum"`, `"comp"` keys of `stats["cooldown"]`). -/
inductive AlertKind where
  | thor
  | lum
  | comp
deriving DecidableEq, Repr

/-- One already-classified row consumed by the monitor view's per-sample
loop (the fields the loop reads). -/
structure MonSample where
  ts_ms : ℤ
  thor_zone : Zone
  lum_zone : Zone
  comp_index : ℚ
deriving DecidableEq, Repr

/-- The `_STATS_MAIN[...]` fields touched by the monitor view's per-sample
loop; the live alert log stores the kind of each emitted alert (the source
stores a per-kind message text), capped to the last 5 entries. -/
structure MonStats where
  prev_ts_ms : Option ℤ
  thor_red_s : ℚ
  thor_red_streak_s : ℚ
  lum_red_s : ℚ
  lum_red_streak_s : ℚ
  comp_high_streak_s : ℚ
  comp_sum : ℚ
  comp_peak : ℚ
  samples : ℕ
  last_thor_zone : Zone
  last_lum_zone : Zone
  last_comp : ℚ
  cooldownThor : ℤ
  cooldownLum : ℤ
  cooldownComp : ℤ
  alerts_count : ℕ
  live_alerts : List AlertKind
deriving DecidableEq, Repr

/-- `stats["cooldown"].get(key, 0)` per kind. -/
def MonStats.cd (st : MonStats) : AlertKind → ℤ
  | AlertKind.thor => st.cooldownThor
  | AlertKind.lum => st.cooldownLum
  | AlertKind.comp => st.cooldownComp

/-- The fresh `_STATS_MAIN[...]` entry created when recording starts. -/
def initMonStats : MonStats :=
  ⟨none, 0, 0, 0, 0, 0, 0, 0, 0, Zone.green, Zone.green, 0, 0, 0, 0, 0, []⟩

/-- The `push_alert` closure: return unchanged while the kind is within its
5000 ms cooldown; otherwise stamp the kind's last-fired time, bump the alert
count and append to the (last-5-capped) live alert log. -/
def push_alert (now : ℤ) (k : AlertKind) (st : MonStats) : MonStats :=
  if now - st.cd k < 5000 then st
  else
    let la := st.live_alerts ++ [k]
    let st2 :=
      match k with
      | AlertKind.thor => { st with cooldownThor := now }
      | AlertKind.lum => { st with cooldownLum := now }
      | AlertKind.comp => { st with cooldownComp := now }
    { st2 with alerts_count := st.alerts_count + 1,
               live_alerts := la.drop (la.length - 5) }

/-- The statistics half of the loop body: time delta (nominal 0.02 s for the
first sample or non-positive deltas), red dwell and streaks per segment,
compensation sum/peak/streak, last-seen fields. -/
def stepStats (st : MonStats) (r : MonSample) : MonStats :=
  let dt : ℚ :=
    match st.prev_ts_ms with
    | none => 2 / 100
    | some prev =>
        if max 0 (((r.ts_ms - prev : ℤ) : ℚ) / 1000) ≤ 0 then 2 / 100
        else max 0 (((r.ts_ms - prev : ℤ) : ℚ) / 1000)
  { st with
    prev_ts_ms := some r.ts_ms,
    thor_red_s := if r.thor_zone = Zone.red then st.thor_red_s + dt else st.thor_red_s,
    thor_red_streak_s := if r.thor_zone = Zone.red then st.thor_red_streak_s + dt else 0,
    lum_red_s := if r.lum_zone = Zone.red then st.lum_red_s + dt else st.lum_red_s,
    lum_red_streak_s := if r.lum_zone = Zone.red then st.lum_red_streak_s + dt else 0,
    comp_sum := st.comp_sum + r.comp_index,
    comp_peak := max st.comp_peak r.comp_index,
    samples := st.samples + 1,
    comp_high_streak_s := if r.comp_index ≥ 60 then st.comp_high_streak_s + dt else 0,
    last_thor_zone := r.thor_zone,
    last_lum_zone := r.lum_zone,
    last_comp := r.comp_index }

/-- `if stats["thor_red_streak_s"] >= 3.0: push_alert("thor", ...)`. -/
def stageThor (now : ℤ) (st : MonStats) : MonStats :=
  if st.thor_red_streak_s ≥ 3 then push_alert now AlertKind.thor st else st

/-- `if stats["lum_red_streak_s"] >= 3.0: push_alert("lum", ...)`. -/
def stageLum (now : ℤ) (st : MonStats) : MonStats :=
  if st.lum_red_streak_s ≥ 3 then push_alert now AlertKind.lum st else st

/-- `if stats["comp_high_streak_s"] >= 2.0: push_alert("comp", ...)`. -/
def stageComp (now : ℤ) (st : MonStats) : MonStats :=
  if st.comp_high_streak_s ≥ 2 then push_alert now AlertKind.comp st else st

/-- The alert half of the loop body: fire thor / lum / comp in order, each
guarded by its streak threshold (3 s, 3 s, 2 s) and by `push_alert`'s
cooldown. -/
def stepAlerts (st : MonStats) (now : ℤ) : MonStats :=
  stageComp now (stageLum now (stageThor now st))

/-- One full iteration of the monitor view's per-sample loop. -/
def monStep (st : MonStats) (r : MonSample) : MonStats :=
  stepAlerts (stepStats st r) r.ts_ms

/-- The host timestamps at which alerts of kind `k` fire along a run
(a firing is visible as a change of that kind's last-fired stamp). -/
def fireTimes (k : AlertKind) : MonStats → List MonSample → List ℤ
  | _, [] => []
  | st, r :: rs =>
      if (monStep st r).cd k ≠ st.cd k
      then r.ts_ms :: fireTimes k (monStep st r) rs
      else fireTimes k (monStep st r) rs

/-- The streak relevant to kind `k`. -/
def streakOf (k : AlertKind) (st : MonStats) : ℚ :=
  match k with
  | AlertKind.thor => st.thor_red_streak_s
  | AlertKind.lum => st.lum_red_streak_s
  | AlertKind.comp => st.comp_high_streak_s

/-- The streak threshold (seconds) of kind `k`. -/
def streakThreshold : AlertKind → ℚ
  | AlertKind.thor => 3
  | AlertKind.lum => 3
  | AlertKind.comp => 2

theorem push_alert_cd_other (now : ℤ) (k k2 : AlertKind) (st : MonStats)
    (hkk : k2 ≠ k) : (push_alert now k st).cd k2 = st.cd k2 := by
  cases k <;> cases k2 <;>
    first
    | exact absurd rfl hkk
    | (unfold push_alert MonStats.cd; split_ifs <;> rfl)

theorem push_alert_cd_self (now : ℤ) (k : AlertKind) (st : MonStats) :
    (push_alert now k st).cd k = st.cd k ∨
      ((push_alert now k st).cd k = now ∧ 5000 ≤ now - st.cd k) := by
  unfold push_alert
  split_ifs with h
  · left; rfl
  · right
    refine ⟨?_, by linarith [not_lt.mp h]⟩
    cases k <;> rfl

theorem push_alert_streak (now : ℤ) (k k2 : AlertKind) (st : MonStats) :
    streakOf k2 (push_alert now k st) = streakOf k2 st := by
  cases k <;> cases k2 <;> (unfold push_alert streakOf; split_ifs <;> rfl)

theorem push_alert_count (now : ℤ) (k : AlertKind) (st : MonStats) :
    (push_alert now k st).alerts_count =
      st.alerts_count + (if (push_alert now k st).cd k ≠ st.cd k then 1 else 0) := by
  by_cases h : now - st.cd k < 5000
  · unfold push_alert; rw [if_pos h]; simp
  · have hne : now ≠ st.cd k := by omega
    unfold push_alert
    rw [if_neg h]
    cases k <;> simp only [MonStats.cd] at hne ⊢ <;> simp [hne]

theorem ite_push_cd (cond : Prop) [Decidable cond] (now : ℤ) (k k2 : AlertKind)
    (st : MonStats) :
    ((if cond then push_alert now k st else st).cd k2 = st.cd k2)
    ∨ (k2 = k ∧ cond ∧ (if cond then push_alert now k st else st).cd k2 = now ∧
        5000 ≤ now - st.cd k2) := by
  by_cases h : cond
  · rw [if_pos h]
    by_cases hk : k2 = k
    · subst hk
      rcases push_alert_cd_self now k2 st with hh | ⟨ha, hb⟩
      · left; exact hh
      · right; exact ⟨rfl, h, ha, hb⟩
    · left; exact push_alert_cd_other now k k2 st hk
  · rw [if_neg h]; left; rfl

theorem ite_push_cd_other (cond : Prop) [Decidable cond] (now : ℤ) (k k2 : AlertKind)
    (st : MonStats) (hk : k2 ≠ k) :
    (if cond then push_alert now k st else st).cd k2 = st.cd k2 := by
  by_cases h : cond
  · rw [if_pos h]; exact push_alert_cd_other now k k2 st hk
  · rw [if_neg h]

theorem ite_push_streak (cond : Prop) [Decidable cond] (now : ℤ) (k k2 : AlertKind)
    (st : MonStats) :
    streakOf k2 (if cond then push_alert now k st else st) = streakOf k2 st := by
  by_cases h : cond
  · rw [if_pos h]; exact push_alert_streak now k k2 st
  · rw [if_neg h]

theorem ite_push_count (cond : Prop) [Decidable cond] (now : ℤ) (k : AlertKind)
    (st : MonStats) :
    (if cond then push_alert now k st else st).alerts_count =
      st.alerts_count +
        (if (if cond then push_alert now k st else st).cd k ≠ st.cd k then 1 else 0) := by
  by_cases h : cond
  · rw [if_pos h]; exact push_alert_count now k st
  · rw [if_neg h]; simp

theorem stageThor_cd_other (now : ℤ) (st : MonStats) (k2 : AlertKind)
    (hk : k2 ≠ AlertKind.thor) : (stageThor now st).cd k2 = st.cd k2 := by
  unfold stageThor; exact ite_push_cd_other _ now _ _ st hk

theorem stageLum_cd_other (now : ℤ) (st : MonStats) (k2 : AlertKind)
    (hk : k2 ≠ AlertKind.lum) : (stageLum now st).cd k2 = st.cd k2 := by
  unfold stageLum; exact ite_push_cd_other _ now _ _ st hk

theorem stageComp_cd_other (now : ℤ) (st : MonStats) (k2 : AlertKind)
    (hk : k2 ≠ AlertKind.comp) : (stageComp now st).cd k2 = st.cd k2 := by
  unfold stageComp; exact ite_push_cd_other _ now _ _ st hk

theorem stageThor_cd_self (now : ℤ) (st : MonStats) :
    (stageThor now st).cd AlertKind.thor = st.cd AlertKind.thor ∨
      ((stageThor now st).cd AlertKind.thor = now ∧ 5000 ≤ now - st.cd AlertKind.thor ∧
        st.thor_red_streak_s ≥ 3) := by
  unfold stageThor
  rcases ite_push_cd (st.thor_red_streak_s ≥ 3) now AlertKind.thor AlertKind.thor st with
    h | ⟨_, hc, hn, hg⟩
  · left; exact h
  · right; exact ⟨hn, hg, hc⟩

theorem stageLum_cd_self (now : ℤ) (st : MonStats) :
    (stageLum now st).cd AlertKind.lum = st.cd AlertKind.lum ∨
      ((stageLum now st).cd AlertKind.lum = now ∧ 5000 ≤ now - st.cd AlertKind.lum ∧
        st.lum_red_streak_s ≥ 3) := by
  unfold stageLum
  rcases ite_push_cd (st.lum_red_streak_s ≥ 3) now AlertKind.lum AlertKind.lum st with
    h | ⟨_, hc, hn, hg⟩
  · left; exact h
  · right; exact ⟨hn, hg, hc⟩

theorem stageComp_cd_self (now : ℤ) (st : MonStats) :
    (stageComp now st).cd AlertKind.comp = st.cd AlertKind.comp ∨
      ((stageComp now st).cd AlertKind.comp = now ∧ 5000 ≤ now - st.cd AlertKind.comp ∧
        st.comp_high_streak_s ≥ 2) := by
  unfold stageComp
  rcases ite_push_cd (st.comp_high_streak_s ≥ 2) now AlertKind.comp AlertKind.comp st with
    h | ⟨_, hc, hn, hg⟩
  · left; exact h
  · right; exact ⟨hn, hg, hc⟩

theorem stageThor_streak (now : ℤ) (st : MonStats) (k2 : AlertKind) :
    streakOf k2 (stageThor now st) = streakOf k2 st := by
  unfold stageThor; exact ite_push_streak _ now _ _ st

theorem stageLum_streak (now : ℤ) (st : MonStats) (k2 : AlertKind) :
    streakOf k2 (stageLum now st) = streakOf k2 st := by
  unfold stageLum; exact ite_push_streak _ now _ _ st

theorem stageComp_streak (now : ℤ) (st : MonStats) (k2 : AlertKind) :
    streakOf k2 (stageComp now st) = streakOf k2 st := by
  unfold stageComp; exact ite_push_streak _ now _ _ st

theorem stageThor_count (now : ℤ) (st : MonStats) :
    (stageThor now st).alerts_count = st.alerts_count +
      (if (stageThor now st).cd AlertKind.thor ≠ st.cd AlertKind.thor then 1 else 0) := by
  unfold stageThor; exact ite_push_count _ now _ st

theorem stageLum_count (now : ℤ) (st : MonStats) :
    (stageLum now st).alerts_count = st.alerts_count +
      (if (stageLum now st).cd AlertKind.lum ≠ st.cd AlertKind.lum then 1 else 0) := by
  unfold stageLum; exact ite_push_count _ now _ st

theorem stageComp_count (now : ℤ) (st : MonStats) :
    (stageComp now st).alerts_count = st.alerts_count +
      (if (stageComp now st).cd AlertKind.comp ≠ st.cd AlertKind.comp then 1 else 0) := by
  unfold stageComp; exact ite_push_count _ now _ st

theorem stepAlerts_cd (st : MonStats) (now : ℤ) (k : AlertKind) :
    ((stepAlerts st now).cd k = st.cd k)
    ∨ ((stepAlerts st now).cd k = now ∧ 5000 ≤ now - st.cd k ∧
        streakThreshold k ≤ streakOf k st) := by
  unfold stepAlerts
  cases k with
  | thor =>
      have h1 : (stageComp now (stageLum now (stageThor now st))).cd AlertKind.thor =
          (stageLum now (stageThor now st)).cd AlertKind.thor :=
        stageComp_cd_other now _ _ (by decide)
      have h2 : (stageLum now (stageThor now st)).cd AlertKind.thor =
          (stageThor now st).cd AlertKind.thor :=
        stageLum_cd_other now _ _ (by decide)
      rcases stageThor_cd_self now st with h | ⟨hn, hg, hc⟩
      · left; rw [h1, h2, h]
      · right; exact ⟨by rw [h1, h2]; exact hn, hg, hc⟩
  | lum =>
      have h1 : (stageComp now (stageLum now (stageThor now st))).cd AlertKind.lum =
          (stageLum now (stageThor now st)).cd AlertKind.lum :=
        stageComp_cd_other now _ _ (by decide)
      have h2 : (stageThor now st).cd AlertKind.lum = st.cd AlertKind.lum :=
        stageThor_cd_other now _ _ (by decide)
      have hs : streakOf AlertKind.lum (stageThor now st) = streakOf AlertKind.lum st :=
        stageThor_streak now st AlertKind.lum
      rcases stageLum_cd_self now (stageThor now st) with h | ⟨hn, hg, hc⟩
      · left; rw [h1, h, h2]
      · right
        refine ⟨by rw [h1]; exact hn, by rw [h2] at hg; exact hg, ?_⟩
        rw [← hs]; exact hc
  | comp =>
      have h2 : (stageThor now st).cd AlertKind.comp = st.cd AlertKind.comp :=
        stageThor_cd_other now _ _ (by decide)
      have h3 : (stageLum now (stageThor now st)).cd AlertKind.comp =
          (stageThor now st).cd AlertKind.comp :=
        stageLum_cd_other now _ _ (by decide)
      have hs2 : streakOf AlertKind.comp (stageThor now st) = streakOf AlertKind.comp st :=
        stageThor_streak now st AlertKind.comp
      have hs3 : streakOf AlertKind.comp (stageLum now (stageThor now st)) =
          streakOf AlertKind.comp (stageThor now st) :=
        stageLum_streak now (stageThor now st) AlertKind.comp
      rcases stageComp_cd_self now (stageLum now (stageThor now st)) with h | ⟨hn, hg, hc⟩
      · left; rw [h, h3, h2]
      · right
        refine ⟨hn, by rw [h3, h2] at hg; exact hg, ?_⟩
        rw [← hs2, ← hs3]; exact hc

theorem stepAlerts_streak (st : MonStats) (now : ℤ) (k2 : AlertKind) :
    streakOf k2 (stepAlerts st now) = streakOf k2 st := by
  unfold stepAlerts
  rw [stageComp_streak, stageLum_streak, stageThor_streak]

theorem stepAlerts_count (st : MonStats) (now : ℤ) :
    (stepAlerts st now).alerts_count = st.alerts_count
      + (if (stepAlerts st now).cd AlertKind.thor ≠ st.cd AlertKind.thor then 1 else 0)
      + (if (stepAlerts st now).cd AlertKind.lum ≠ st.cd AlertKind.lum then 1 else 0)
      + (if (stepAlerts st now).cd AlertKind.comp ≠ st.cd AlertKind.comp then 1 else 0) := by
  unfold stepAlerts
  have c1 := stageThor_count now st
  have c2 := stageLum_count now (stageThor now st)
  have c3 := stageComp_count now (stageLum now (stageThor now st))
  have pthor2 : (stageLum now (stageThor now st)).cd AlertKind.thor =
      (stageThor now st).cd AlertKind.thor := stageLum_cd_other now _ _ (by decide)
  have pthor3 : (stageComp now (stageLum now (stageThor now st))).cd AlertKind.thor =
      (stageLum now (stageThor now st)).cd AlertKind.thor :=
    stageComp_cd_other now _ _ (by decide)
  have plum1 : (stageThor now st).cd AlertKind.lum = st.cd AlertKind.lum :=
    stageThor_cd_other now _ _ (by decide)
  have plum3 : (stageComp now (stageLum now (stageThor now st))).cd AlertKind.lum =
      (stageLum now (stageThor now st)).cd AlertKind.lum :=
    stageComp_cd_other now _ _ (by decide)
  have pcomp1 : (stageThor now st).cd AlertKind.comp = st.cd AlertKind.comp :=
    stageThor_cd_other now _ _ (by decide)
  have pcomp2 : (stageLum now (stageThor now st)).cd AlertKind.comp =
      (stageThor now st).cd AlertKind.comp := stageLum_cd_other now _ _ (by decide)
  rw [c3, c2, c1]
  simp only [pthor2, pthor3, plum1, plum3, pcomp1, pcomp2]

theorem stepStats_cd (st : MonStats) (r : MonSample) (k : AlertKind) :
    (stepStats st r).cd k = st.cd k := by
  cases k <;> rfl

theorem monStep_fire (st : MonStats) (r : MonSample) (k : AlertKind)
    (hf : (monStep st r).cd k ≠ st.cd k) :
    (monStep st r).cd k = r.ts_ms ∧ 5000 ≤ r.ts_ms - st.cd k ∧
    streakThreshold k ≤ streakOf k (monStep st r) := by
  have hpre := stepStats_cd st r k
  rcases stepAlerts_cd (stepStats st r) r.ts_ms k with h | ⟨h1, h2, h3⟩
  · exact absurd (h.trans hpre) hf
  · refine ⟨h1, by rw [← hpre]; exact h2, ?_⟩
    have hs : streakOf k (monStep st r) = streakOf k (stepStats st r) :=
      stepAlerts_streak (stepStats st r) r.ts_ms k
    rw [hs]
    -- streak after the stats update is what the source checks; push_alert
    -- itself never changes a streak, so the checked value is preserved
    rcases stepAlerts_cd (stepStats st r) r.ts_ms k with h | ⟨_, _, h3b⟩
    · exact absurd (h.trans hpre) hf
    · exact h3b

theorem monStep_count (st : MonStats) (r : MonSample) :
    (monStep st r).alerts_count = st.alerts_count
      + (if (monStep st r).cd AlertKind.thor ≠ st.cd AlertKind.thor then 1 else 0)
      + (if (monStep st r).cd AlertKind.lum ≠ st.cd AlertKind.lum then 1 else 0)
      + (if (monStep st r).cd AlertKind.comp ≠ st.cd AlertKind.comp then 1 else 0) := by
  have h := stepAlerts_count (stepStats st r) r.ts_ms
  rw [stepStats_cd st r AlertKind.thor, stepStats_cd st r AlertKind.lum,
      stepStats_cd st r AlertKind.comp] at h
  have hc : (stepStats st r).alerts_count = st.alerts_count := rfl
  rw [hc] at h
  exact h

theorem fireTimes_chain (k : AlertKind) : ∀ (rs : List MonSample) (st : MonStats),
    List.Chain' (fun a b => 5000 ≤ b - a) (fireTimes k st rs)
    ∧ (∀ t ∈ fireTimes k st rs, 5000 ≤ t - st.cd k) := by
  intro rs
  induction rs with
  | nil =>
      intro st
      exact ⟨List.chain'_nil, by intro t ht; simp [fireTimes] at ht⟩
  | cons r rs ih =>
      intro st
      by_cases hf : (monStep st r).cd k ≠ st.cd k
      · obtain ⟨h1, h2, h3⟩ := monStep_fire st r k hf
        obtain ⟨c1, c2⟩ := ih (monStep st r)
        have heq : fireTimes k st (r :: rs) = r.ts_ms :: fireTimes k (monStep st r) rs := by
          simp only [fireTimes]; rw [if_pos hf]
        constructor
        · rw [heq]
          refine List.chain'_cons'.mpr ⟨?_, c1⟩
          intro b hb
          have hbm := c2 b (List.mem_of_mem_head? hb)
          rw [h1] at hbm
          exact hbm
        · intro t ht
          rw [heq] at ht
          rcases List.mem_cons.mp ht with hteq | ht2
          · subst hteq; exact h2
          · have := c2 t ht2
            rw [h1] at this
            linarith
      · push_neg at hf
        obtain ⟨c1, c2⟩ := ih (monStep st r)
        have heq : fireTimes k st (r :: rs) = fireTimes k (monStep st r) rs := by
          simp only [fireTimes]; rw [if_neg (by simpa using hf)]
        constructor
        · rw [heq]; exact c1
        · intro t ht
          rw [heq] at ht
          have := c2 t ht
          rw [hf] at this
          exact this

/-- C2 (amended): in the monitor view's per-sample loop any two consecutive
firings of the same alert kind are at least 5000 ms apart (so each kind fires
at most once per 5000 ms window, never once per sample); a kind fires only
when its streak has crossed its threshold (3 s / 3 s / 2 s) AND 5000 ms have
elapsed since that kind's last-fired stamp; and the alert count increments by
exactly the number of kinds that fired at that sample. -/
theorem C2_alert_cooldown (rs : List MonSample) (k : AlertKind) :
    List.Chain' (fun a b => 5000 ≤ b - a) (fireTimes k initMonStats rs)
    ∧ (∀ (st : MonStats) (r : MonSample),
        (monStep st r).cd k ≠ st.cd k →
        (monStep st r).cd k = r.ts_ms ∧ 5000 ≤ r.ts_ms - st.cd k ∧
        streakThreshold k ≤ streakOf k (monStep st r))
    ∧ (∀ (st : MonStats) (r : MonSample),
        (monStep st r).alerts_count = st.alerts_count
          + (if (monStep st r).cd AlertKind.thor ≠ st.cd AlertKind.thor then 1 else 0)
          + (if (monStep st r).cd AlertKind.lum ≠ st.cd AlertKind.lum then 1 else 0)
          + (if (monStep st r).cd AlertKind.comp ≠ st.cd AlertKind.comp then 1 else 0)) :=
  ⟨(fireTimes_chain k rs initMonStats).1,
   fun st r hf => monStep_fire st r k hf,
   fun st r => monStep_count st r⟩

/-- Concrete monitor stats for the C2 witness: thoracic streak already at
4 s, all cooldown stamps at 0. -/
def stWit : MonStats :=
  ⟨none, 0, 4, 0, 0, 0, 0, 0, 0, Zone.green, Zone.green, 0, 0, 0, 0, 0, []⟩

/-- Concrete sample for the C2 witness: both segments red at host time
6000 ms. -/
def rWit : MonSample := ⟨6000, Zone.red, Zone.red, 0⟩

/-- C2 witness: a concrete thoracic firing — streak over 3 s and 6000 ms past
the initial stamp — satisfies the firing conditions. -/
theorem C2_alert_cooldown_witness :
    (monStep stWit rWit).cd AlertKind.thor = rWit.ts_ms ∧
    5000 ≤ rWit.ts_ms - stWit.cd AlertKind.thor ∧
    streakThreshold AlertKind.thor ≤ streakOf AlertKind.thor (monStep stWit rWit) :=
  (C2_alert_cooldown [] AlertKind.thor).2.1 stWit rWit (by
    have hcd : (monStep stWit rWit).cd AlertKind.thor = 6000 := by
      norm_num [monStep, stepStats, stepAlerts, stageThor, stageLum, stageComp,
        push_alert, MonStats.cd, stWit, rWit]
    rw [hcd]
    decide)

/-- Samples for the C2 counterexample: red at 1000 ms, green at 1100 ms, red
again at 1200 ms (all pre-annotated). -/
def sC2a : InSample := ⟨1000, 0, 0, 0, 0, 0, 0, some (Zone.red, Zone.green, 0), none, none⟩

/-- Second C2 counterexample sample (green at 1100 ms). -/
def sC2b : InSample := ⟨1100, 0, 0, 0, 0, 0, 0, some (Zone.green, Zone.green, 0), none, none⟩

/-- Third C2 counterexample sample (red again at 1200 ms). -/
def sC2c : InSample := ⟨1200, 0, 0, 0, 0, 0, 0, some (Zone.red, Zone.green, 0), none, none⟩

/-- C2 (counterexample): `SessionRecorder`'s own per-sample alert counter
(session_recorder.py lines 146-151) has neither a streak threshold nor a
cooldown — it increments on every transition into red, so three samples
spanning only 200 ms (well inside one 5000 ms window, with no 3 s streak)
already produce two thoracic alert increments. -/
theorem C2_counterexample :
    ([sC2a, sC2b, sC2c].foldl (fun a s => process_sample a s 2000)
        (started_recorder cfgEx 1 0))._alerts = 2 := by
  decide

end AxisFit
